import Mathlib

/-!
Shallow embedding of the `payment-tokenator` peer-to-peer payment protocol.

The repository contains two revisions of the same class:
- `src/src/PaymentTokenator.js` (embedded in namespace `Cur`): the revision
  with the `getP2PKHOutputInfo` helper and the direct-respend variant of
  `rejectPayment`;
- `src/unnamed/part_000` (embedded in namespace `Alt`): the revision with the
  inline derivation in `createPaymentToken`, `sendPayment` delegating to
  `sendLivePayment`, and the dust-guarded accept-then-repay variant of
  `rejectPayment`.

External collaborators (the Babbage SDK, the Ninja custody client, the
message transport) are modelled by an `Env` record of oracle responses:
`getPublicKey` and `createAction` are treated as pure response functions,
while `submitOutcome` and `ackOutcome` give the outcome of the (single)
`submitDirectTransaction` and `acknowledgeMessage` calls a flow performs.
Every operation additionally returns the list of external calls it makes,
as a trace of `Effect` values, so that claims about "exactly one send" or
"no acknowledgment" can be stated as facts about the trace.

JavaScript objects are mutable; a function that assigns to a field of its
argument (as `createPaymentToken` does with `payment.messageBox` and
`payment.body`) is modelled as returning the post-state of that object.
Since the JS code returns the very same object reference it mutated, the
single returned `Payment` is simultaneously the caller's object after the
call and the function's return value.
-/

namespace PaymentTokenator

/-- One entry of the minimal output descriptor list placed in the token body:
`{ vout, satoshis, derivationSuffix }`. -/
structure OutputDesc where
  vout : Nat
  satoshis : Int
  derivationSuffix : String
deriving DecidableEq

/-- The artifact returned by `BabbageSDK.createAction` (builder-specific
fields such as `rawTx` and `txid`, kept abstract as strings). -/
structure Action where
  rawTx : String
  txid : String
deriving DecidableEq

/-- The `transaction` field of a token body: the spread of the builder
artifact with its `outputs` replaced by the minimal descriptor list. -/
structure TokenTx where
  rawTx : String
  txid : String
  outputs : List OutputDesc
deriving DecidableEq

/-- The wire body of a payment token:
`{ derivationPrefix, transaction, amount }`. -/
structure TokenBody where
  derivationPrefix : String
  transaction : TokenTx
  amount : Int
deriving DecidableEq

/-- The mutable `payment` object handed to `createPaymentToken` /
`sendPayment`. `sender` is an optional field because outbound payments are
built as `{ recipient, amount }` with no `sender` key (reading it in JS
yields `undefined`, modelled as `none`). `messageBox` and `body` start
absent and are assigned by `createPaymentToken`. -/
structure Payment where
  recipient : String
  amount : Int
  sender : Option String
  messageBox : Option String
  body : Option TokenBody
deriving DecidableEq

/-- An incoming payment as produced by listing: `{ messageId, sender,
amount, token }`. -/
structure IncomingPayment where
  messageId : Nat
  sender : String
  amount : Int
  token : TokenBody
deriving DecidableEq

/-- The opaque result returned by `submitDirectTransaction`. -/
structure SubmitResult where
  raw : String
deriving DecidableEq

/-- A raw transport message as returned by `listMessages`. -/
structure Message where
  messageId : Nat
  sender : String
  amount : Int
  body : String
deriving DecidableEq

/-- One external call made by a flow, recorded in order. -/
inductive Effect where
  | derive (protocolID : Nat × String) (keyID : String) (counterparty : Option String)
  | createAct (description : String) (outputs : List (String × Int))
  | submitDirect (protocol : String) (senderIdentityKey : String) (note : String)
      (amount : Int) (derivationTag : String) (transaction : TokenTx)
  | ackMsg (messageIds : List Nat)
  | sendMsg (token : Payment)
  | sendLiveMsg (token : Payment)
  | listMsgs (messageBox : String)
deriving DecidableEq

/-- Oracle responses of the external collaborators for one flow.
`submitOutcome` is `.error ()` when `submitDirectTransaction` throws;
`ackOutcome` is `.error code` when `acknowledgeMessage` throws an error
whose `code` property is the given string. -/
structure Env where
  getPublicKey : Nat × String → String → Option String → String
  scriptOf : String → String
  createAction : String → List (String × Int) → Action
  submitOutcome : Except Unit SubmitResult
  ackOutcome : Except String Unit

/-- Return value of `acceptPayment`: either the `{ payment, paymentResult }`
object or the failure-indicator string produced by the catch-all. -/
inductive AcceptReturn where
  | result (payment : IncomingPayment) (paymentResult : SubmitResult)
  | failure (msg : String)
deriving DecidableEq

/-- Predicate singling out acknowledgment effects. -/
def isAckEffect : Effect → Bool
  | Effect.ackMsg _ => true
  | _ => false

/-- Predicate singling out claim-submission effects. -/
def isSubmitEffect : Effect → Bool
  | Effect.submitDirect _ _ _ _ _ _ => true
  | _ => false

/-- Predicate singling out outbound message sends (store-and-forward or
live). -/
def isSendEffect : Effect → Bool
  | Effect.sendMsg _ => true
  | Effect.sendLiveMsg _ => true
  | _ => false

/-- The acknowledgment effects of a trace, in order. -/
def ackEffects (tr : List Effect) : List Effect :=
  tr.filter isAckEffect

/-- The recipients and amounts of the outbound payment tokens sent by a
trace, in order. -/
def sentAmounts (tr : List Effect) : List (String × Int) :=
  tr.filterMap fun e =>
    match e with
    | Effect.sendMsg tok => some (tok.recipient, tok.amount)
    | Effect.sendLiveMsg tok => some (tok.recipient, tok.amount)
    | _ => none

namespace Cur

/-- Embedding of `getP2PKHOutputInfo` (src/src/PaymentTokenator.js, lines
239-266). The two fresh random nonces drawn by `crypto.randomBytes(10)`
are supplied as the parameters `noncePre` and `nonceSuf`. -/
structure OutputInfo where
  derivationPrefix : String
  derivationSuffix : String
  derivedPublicKey : String
  script : String
deriving DecidableEq

/-- Embedding of `getP2PKHOutputInfo({ recipient })`: derives a public key
with protocol identifier `[2, '3241645161d8']`, key id `prefix ++ " " ++
suffix`, and `recipient` as counterparty, then builds the locking script. -/
def getP2PKHOutputInfo (env : Env) (noncePre nonceSuf : String)
    (recipient : Option String) : OutputInfo × List Effect :=
  let keyID := noncePre ++ " " ++ nonceSuf
  let derivedPublicKey := env.getPublicKey (2, "3241645161d8") keyID recipient
  let script := env.scriptOf derivedPublicKey
  ({ derivationPrefix := noncePre, derivationSuffix := nonceSuf,
     derivedPublicKey := derivedPublicKey, script := script },
   [Effect.derive (2, "3241645161d8") keyID recipient])

/-- Embedding of `createPaymentToken` (src/src/PaymentTokenator.js, lines
28-48). Note the source calls
`this.getP2PKHOutputInfo({ recipient: payment.sender })` — the counterparty
passed to the helper is `payment.sender`, not `payment.recipient`. The
returned `Payment` models the caller's object after the in-place
assignments to `payment.messageBox` and `payment.body` (JS returns that
same object). -/
def createPaymentToken (env : Env) (noncePre nonceSuf : String)
    (payment : Payment) : Payment × List Effect :=
  let pr := getP2PKHOutputInfo env noncePre nonceSuf payment.sender
  let outputInfo := pr.fst
  let paymentAction := env.createAction "Tokenator payment"
    [(outputInfo.script, payment.amount)]
  let body : TokenBody :=
    { derivationPrefix := outputInfo.derivationPrefix,
      transaction :=
        { rawTx := paymentAction.rawTx, txid := paymentAction.txid,
          outputs := [{ vout := 0, satoshis := payment.amount,
                        derivationSuffix := outputInfo.derivationSuffix }] },
      amount := payment.amount }
  ({ payment with messageBox := some "payment_inbox", body := some body },
   pr.snd ++ [Effect.createAct "Tokenator payment"
                [(outputInfo.script, payment.amount)]])

/-- Embedding of `sendPayment` (src/src/PaymentTokenator.js, lines 56-59):
builds a token then hands it to `sendMessage` (store-and-forward). The
result is the trace of external calls. -/
def sendPayment (env : Env) (noncePre nonceSuf : String)
    (payment : Payment) : List Effect :=
  let pr := createPaymentToken env noncePre nonceSuf payment
  pr.snd ++ [Effect.sendMsg pr.fst]

/-- Embedding of `sendLivePayment` (src/src/PaymentTokenator.js, lines
67-70): builds a token then hands it to `sendLiveMessage`. -/
def sendLivePayment (env : Env) (noncePre nonceSuf : String)
    (payment : Payment) : List Effect :=
  let pr := createPaymentToken env noncePre nonceSuf payment
  pr.snd ++ [Effect.sendLiveMsg pr.fst]

end Cur

namespace Alt

/-- Embedding of `createPaymentToken` (src/unnamed/part_000, lines 28-66).
This revision derives inline with `counterparty: payment.recipient`. The
returned `Payment` models the caller's object after the in-place
assignments to `payment.messageBox` and `payment.body` (JS returns that
same object). -/
def createPaymentToken (env : Env) (noncePre nonceSuf : String)
    (payment : Payment) : Payment × List Effect :=
  let keyID := noncePre ++ " " ++ nonceSuf
  let derivedPublicKey :=
    env.getPublicKey (2, "3241645161d8") keyID (some payment.recipient)
  let script := env.scriptOf derivedPublicKey
  let paymentAction := env.createAction "Tokenator payment"
    [(script, payment.amount)]
  let body : TokenBody :=
    { derivationPrefix := noncePre,
      transaction :=
        { rawTx := paymentAction.rawTx, txid := paymentAction.txid,
          outputs := [{ vout := 0, satoshis := payment.amount,
                        derivationSuffix := nonceSuf }] },
      amount := payment.amount }
  ({ payment with messageBox := some "payment_inbox", body := some body },
   [Effect.derive (2, "3241645161d8") keyID (some payment.recipient),
    Effect.createAct "Tokenator payment" [(script, payment.amount)]])

/-- Embedding of `sendLivePayment` (src/unnamed/part_000, lines 84-87). -/
def sendLivePayment (env : Env) (noncePre nonceSuf : String)
    (payment : Payment) : List Effect :=
  let pr := createPaymentToken env noncePre nonceSuf payment
  pr.snd ++ [Effect.sendLiveMsg pr.fst]

/-- Embedding of `sendPayment` (src/unnamed/part_000, lines 74-76): this
revision delegates to `sendLivePayment`. -/
def sendPayment (env : Env) (noncePre nonceSuf : String)
    (payment : Payment) : List Effect :=
  sendLivePayment env noncePre nonceSuf payment

end Alt

/-- Embedding of `acceptPayment` (identical in both revisions:
src/src/PaymentTokenator.js lines 93-138, src/unnamed/part_000 lines
110-155). Submits the embedded transaction; on success, acknowledges the
source message, swallowing only an error whose code is
`ERR_INVALID_ACKNOWLEDGMENT`; any exception reaching the outer catch makes
the function return the string `Unable to receive payment!`. -/
def acceptPayment (env : Env) (payment : IncomingPayment) :
    AcceptReturn × List Effect :=
  let submitEv := Effect.submitDirect "3241645161d8" payment.sender
    "PeerServ payment" payment.amount payment.token.derivationPrefix
    payment.token.transaction
  match env.submitOutcome with
  | Except.error _ =>
      (AcceptReturn.failure "Unable to receive payment!", [submitEv])
  | Except.ok paymentResult =>
      let ackEv := Effect.ackMsg [payment.messageId]
      match env.ackOutcome with
      | Except.ok _ =>
          (AcceptReturn.result payment paymentResult, [submitEv, ackEv])
      | Except.error code =>
          if code = "ERR_INVALID_ACKNOWLEDGMENT" then
            (AcceptReturn.result payment paymentResult, [submitEv, ackEv])
          else
            (AcceptReturn.failure "Unable to receive payment!",
             [submitEv, ackEv])

/-- An idempotent acknowledgment transport: the first acknowledgment of a
message succeeds and marks it acknowledged; a later acknowledgment throws
the error code `ERR_INVALID_ACKNOWLEDGMENT`. -/
def ackIdem (acked : Bool) : Except String Unit × Bool :=
  if acked then (Except.error "ERR_INVALID_ACKNOWLEDGMENT", true)
  else (Except.ok (), true)

/-- `acceptPayment` run against the idempotent acknowledgment transport
`ackIdem`, threading the transport's acknowledged flag, to model two
invocations on the same message (redelivery). Same control flow as
`acceptPayment`, with `env.ackOutcome` replaced by the stateful oracle. -/
def acceptPaymentIdem (env : Env) (acked : Bool)
    (payment : IncomingPayment) : AcceptReturn × Bool :=
  match env.submitOutcome with
  | Except.error _ =>
      (AcceptReturn.failure "Unable to receive payment!", acked)
  | Except.ok paymentResult =>
      let pr := ackIdem acked
      match pr.fst with
      | Except.ok _ => (AcceptReturn.result payment paymentResult, pr.snd)
      | Except.error code =>
          if code = "ERR_INVALID_ACKNOWLEDGMENT" then
            (AcceptReturn.result payment paymentResult, pr.snd)
          else
            (AcceptReturn.failure "Unable to receive payment!", pr.snd)

namespace Alt

/-- Embedding of `rejectPayment` (src/unnamed/part_000, lines 166-181): the
dust-guarded accept-then-repay variant. If `payment.token.amount - 1000 <
1000` it only acknowledges the source message (an acknowledgment error in
this branch propagates, there is no try/catch around it); otherwise it runs
the full `acceptPayment` flow and then `sendPayment` to the original sender
for `payment.token.amount - 1000`. -/
def rejectPayment (env : Env) (noncePre nonceSuf : String)
    (payment : IncomingPayment) : Except String Unit × List Effect :=
  if payment.token.amount - 1000 < 1000 then
    match env.ackOutcome with
    | Except.ok _ => (Except.ok (), [Effect.ackMsg [payment.messageId]])
    | Except.error code =>
        (Except.error code, [Effect.ackMsg [payment.messageId]])
  else
    let pr := acceptPayment env payment
    let tr2 := sendPayment env noncePre nonceSuf
      { recipient := payment.sender, amount := payment.token.amount - 1000,
        sender := none, messageBox := none, body := none }
    (Except.ok (), pr.snd ++ tr2)

end Alt

/-- Recursive core of `listIncomingPayments`: parse every message body,
failing (as `JSON.parse` throws) as soon as one body does not decode. -/
def parsePayments (decode : String → Option TokenBody) :
    List Message → Option (List IncomingPayment)
  | [] => some []
  | x :: xs =>
      match decode x.body, parsePayments decode xs with
      | some t, some ps =>
          some ({ messageId := x.messageId, sender := x.sender,
                  amount := x.amount, token := t } :: ps)
      | _, _ => none

/-- Embedding of `listIncomingPayments` (identical in both revisions):
lists the `payment_inbox` box and maps each message to
`{ messageId, sender, amount, token: JSON.parse(body) }`. The structured
decoder stands in for `JSON.parse`; a body it rejects makes the whole call
throw, modelled as `Except.error`. The trace records the single transport
call. -/
def listIncomingPayments (decode : String → Option TokenBody)
    (messages : List Message) :
    Except String (List IncomingPayment) × List Effect :=
  (match parsePayments decode messages with
   | some ps => Except.ok ps
   | none => Except.error "SyntaxError",
   [Effect.listMsgs "payment_inbox"])

/-- Concrete oracle environment for witnesses: every external call
succeeds. -/
def env0 : Env :=
  { getPublicKey := fun _ keyID cp => "pk/" ++ keyID ++ "/" ++ cp.getD "undefined",
    scriptOf := fun pk => "script/" ++ pk,
    createAction := fun _ _ => { rawTx := "rawtx0", txid := "txid0" },
    submitOutcome := Except.ok { raw := "submitted" },
    ackOutcome := Except.ok () }

/-- Oracle environment whose transport reports the message as already
acknowledged. -/
def envAckDup : Env :=
  { env0 with ackOutcome := Except.error "ERR_INVALID_ACKNOWLEDGMENT" }

/-- Oracle environment whose claim submission throws. -/
def envSubmitFail : Env :=
  { env0 with submitOutcome := Except.error () }

/-- Concrete outbound payment object `{ recipient, amount }` (no `sender`,
`messageBox` or `body` keys, as built by callers of `sendPayment`). -/
def outPay (amt : Int) : Payment :=
  { recipient := "02recipient", amount := amt, sender := none,
    messageBox := none, body := none }

/-- Concrete incoming payment whose token carries the given amount. -/
def inPay (amt : Int) : IncomingPayment :=
  { messageId := 42, sender := "03sender", amount := amt,
    token :=
      { derivationPrefix := "P0",
        transaction :=
          { rawTx := "rawIn", txid := "txidIn",
            outputs := [{ vout := 0, satoshis := amt,
                          derivationSuffix := "S0" }] },
        amount := amt } }

/-- Concrete structured decoder for witnesses: accepts the single body
string `"body0"`. -/
def decode0 : String → Option TokenBody := fun s =>
  if s = "body0" then some (inPay 777).token else none

/-- Concrete one-message inbox for witnesses. -/
def msgs0 : List Message :=
  [{ messageId := 1, sender := "03sender", amount := 777, body := "body0" }]

/-- C1: the claim says `createPaymentToken` invokes the P2PKH
output-derivation helper with counterparty equal to `payment.recipient`.
In src/src/PaymentTokenator.js line 29 the helper is invoked with
`recipient: payment.sender`: for the outbound payment
`{ recipient := "02recipient", amount := 5000 }` (no `sender` key) the
derivation call's counterparty is `none`, not `some "02recipient"`,
while the part_000 revision does derive for `payment.recipient`. -/
theorem C1_cur_counterparty_is_sender_not_recipient :
    (Cur.createPaymentToken env0 "pfx" "sfx" (outPay 5000)).snd.head?
      = some (Effect.derive (2, "3241645161d8") "pfx sfx" (outPay 5000).sender)
    ∧ (outPay 5000).sender = none
    ∧ (outPay 5000).recipient = "02recipient"
    ∧ (Alt.createPaymentToken env0 "pfx" "sfx" (outPay 5000)).snd.head?
      = some (Effect.derive (2, "3241645161d8") "pfx sfx" (some "02recipient")) :=
  ⟨rfl, rfl, rfl, rfl⟩

/-- C2: for every recipient `R` and amount `A > 0`, the token built by
`createPaymentToken {recipient := R, amount := A}` has body amount `A`,
a single output entry `{vout := 0, satoshis := A, derivationSuffix}` with
the freshly generated suffix nonce, and the freshly generated prefix nonce
at the top of the body; the token's `amount` field is `A`. -/
theorem C2_createPaymentToken_amount_and_outputs (env : Env)
    (noncePre nonceSuf R : String) (A : Int) (hA : 0 < A) :
    ∃ b : TokenBody,
      (Alt.createPaymentToken env noncePre nonceSuf
        { recipient := R, amount := A, sender := none,
          messageBox := none, body := none }).fst.body = some b
      ∧ b.amount = A
      ∧ b.derivationPrefix = noncePre
      ∧ b.transaction.outputs
          = [{ vout := 0, satoshis := A, derivationSuffix := nonceSuf }]
      ∧ (Alt.createPaymentToken env noncePre nonceSuf
          { recipient := R, amount := A, sender := none,
            messageBox := none, body := none }).fst.amount = A :=
  ⟨_, rfl, rfl, rfl, rfl, rfl⟩

/-- C2 witness: the token properties evaluated at amount 5000. -/
theorem C2_witness_amount_5000 :
    (0 : Int) < 5000
    ∧ ∃ b : TokenBody,
        (Alt.createPaymentToken env0 "p1" "s1"
          { recipient := "02recipient", amount := 5000, sender := none,
            messageBox := none, body := none }).fst.body = some b
        ∧ b.amount = 5000
        ∧ b.derivationPrefix = "p1"
        ∧ b.transaction.outputs
            = [{ vout := 0, satoshis := 5000, derivationSuffix := "s1" }]
        ∧ (Alt.createPaymentToken env0 "p1" "s1"
            { recipient := "02recipient", amount := 5000, sender := none,
              messageBox := none, body := none }).fst.amount = 5000 :=
  ⟨by decide,
   C2_createPaymentToken_amount_and_outputs env0 "p1" "s1" "02recipient" 5000
     (by decide)⟩

/-- C4: `acceptPayment` never throws and its return is pinned on every
path: when the claim submission succeeds and the acknowledgment succeeds
or fails with the idempotent code, it returns the
`{payment, paymentResult}` object; when the submission fails, or the
acknowledgment fails with any other code, it returns the
failure-indicator string; and in every case the return is one of these
two shapes. -/
theorem C4_acceptPayment_no_throw (env : Env) (p : IncomingPayment) :
    (∀ r : SubmitResult, env.submitOutcome = Except.ok r →
      (env.ackOutcome = Except.ok ()
        ∨ env.ackOutcome = Except.error "ERR_INVALID_ACKNOWLEDGMENT") →
      (acceptPayment env p).fst = AcceptReturn.result p r)
    ∧ (env.submitOutcome = Except.error () →
        (acceptPayment env p).fst
          = AcceptReturn.failure "Unable to receive payment!")
    ∧ (∀ r c, env.submitOutcome = Except.ok r →
        env.ackOutcome = Except.error c →
        c ≠ "ERR_INVALID_ACKNOWLEDGMENT" →
        (acceptPayment env p).fst
          = AcceptReturn.failure "Unable to receive payment!")
    ∧ ((acceptPayment env p).fst
          = AcceptReturn.failure "Unable to receive payment!"
       ∨ ∃ r : SubmitResult,
           (acceptPayment env p).fst = AcceptReturn.result p r) := by
  refine ⟨?_, ?_, ?_, ?_⟩
  · intro r hs ha
    cases ha with
    | inl h => simp [acceptPayment, hs, h]
    | inr h => simp [acceptPayment, hs, h]
  · intro hs; simp [acceptPayment, hs]
  · intro r c hs ha hc; simp [acceptPayment, hs, ha, hc]
  · cases he : env.submitOutcome with
    | error u => left; simp [acceptPayment, he]
    | ok r =>
      cases ha : env.ackOutcome with
      | ok u => right; exact ⟨r, by simp [acceptPayment, he, ha]⟩
      | error c =>
        by_cases hc : c = "ERR_INVALID_ACKNOWLEDGMENT"
        · right; exact ⟨r, by simp [acceptPayment, he, ha, hc]⟩
        · left; simp [acceptPayment, he, ha, hc]

/-- C4 witness: the submit-ok/ack-ok success path evaluated at a concrete
incoming payment returns the `{payment, paymentResult}` object. -/
theorem C4_witness_success_path :
    env0.submitOutcome = Except.ok { raw := "submitted" }
    ∧ env0.ackOutcome = Except.ok ()
    ∧ (acceptPayment env0 (inPay 5000)).fst
        = AcceptReturn.result (inPay 5000) { raw := "submitted" } :=
  ⟨rfl, rfl,
   (C4_acceptPayment_no_throw env0 (inPay 5000)).1 { raw := "submitted" } rfl
     (Or.inl rfl)⟩

/-- C7: in src/src/PaymentTokenator.js, `sendPayment` builds a token via
`createPaymentToken` and hands it to the store-and-forward `sendMessage`
primitive, `sendLivePayment` builds a token and hands it to the
`sendLiveMessage` primitive, and the token both send is addressed to the
fixed inbox `payment_inbox`. -/
theorem C7_send_and_live_send (env : Env) (noncePre nonceSuf : String)
    (p : Payment) :
    Cur.sendPayment env noncePre nonceSuf p
      = (Cur.createPaymentToken env noncePre nonceSuf p).snd
        ++ [Effect.sendMsg (Cur.createPaymentToken env noncePre nonceSuf p).fst]
    ∧ Cur.sendLivePayment env noncePre nonceSuf p
      = (Cur.createPaymentToken env noncePre nonceSuf p).snd
        ++ [Effect.sendLiveMsg (Cur.createPaymentToken env noncePre nonceSuf p).fst]
    ∧ (Cur.createPaymentToken env noncePre nonceSuf p).fst.messageBox
        = some "payment_inbox" :=
  ⟨rfl, rfl, rfl⟩

/-- C9 counterexample: the claim says the caller's payment object is not
modified (no `messageBox` or `body` fields are added to it). Evaluated at
the concrete payment `{ recipient := "02recipient", amount := 2000 }`
(whose `messageBox` and `body` are absent), the object after the call has
`messageBox = some "payment_inbox"` and a `body`, so the claim is false. -/
theorem C9_counterexample_argument_mutated :
    ¬ ((Alt.createPaymentToken env0 "p1" "s1" (outPay 2000)).fst.messageBox
          = (outPay 2000).messageBox
       ∧ (Alt.createPaymentToken env0 "p1" "s1" (outPay 2000)).fst.body
          = (outPay 2000).body) := by
  decide

/-- C9 amended: `createPaymentToken` performs no external side effects
beyond the two calls (key derivation and transaction construction), but it
mutates the caller's payment object — setting `messageBox` to
`payment_inbox` and `body` to the token body while leaving `recipient`,
`amount` and `sender` unchanged — and returns that same mutated object
rather than a fresh value (the returned `Payment` is the post-state of the
argument). -/
theorem C9_amended_mutates_argument (env : Env) (noncePre nonceSuf : String)
    (p : Payment) :
    (Alt.createPaymentToken env noncePre nonceSuf p).fst.messageBox
        = some "payment_inbox"
    ∧ (∃ b : TokenBody,
        (Alt.createPaymentToken env noncePre nonceSuf p).fst.body = some b)
    ∧ (Alt.createPaymentToken env noncePre nonceSuf p).fst.recipient
        = p.recipient
    ∧ (Alt.createPaymentToken env noncePre nonceSuf p).fst.amount = p.amount
    ∧ (Alt.createPaymentToken env noncePre nonceSuf p).fst.sender = p.sender
    ∧ ∃ keyID outs,
        (Alt.createPaymentToken env noncePre nonceSuf p).snd
          = [Effect.derive (2, "3241645161d8") keyID (some p.recipient),
             Effect.createAct "Tokenator payment" outs] :=
  ⟨rfl, ⟨_, rfl⟩, rfl, rfl, rfl, ⟨_, _, rfl⟩⟩

/-- C3: when the claim submission succeeds, an acknowledgment failure with
code `ERR_INVALID_ACKNOWLEDGMENT` is swallowed and `acceptPayment` still
returns the `{payment, paymentResult}` object; an acknowledgment failure
with any other code makes the call return the failure indicator instead of
a PaymentResult; and against the idempotent acknowledgment transport, a
second invocation on the same (already acknowledged) message still returns
the PaymentResult. -/
theorem C3_acceptPayment_ack_idempotence (env : Env) (p : IncomingPayment)
    (r : SubmitResult) (hs : env.submitOutcome = Except.ok r) :
    (env.ackOutcome = Except.error "ERR_INVALID_ACKNOWLEDGMENT" →
      (acceptPayment env p).fst = AcceptReturn.result p r)
    ∧ (∀ c, env.ackOutcome = Except.error c →
        c ≠ "ERR_INVALID_ACKNOWLEDGMENT" →
        (acceptPayment env p).fst
          = AcceptReturn.failure "Unable to receive payment!")
    ∧ (acceptPaymentIdem env false p).fst = AcceptReturn.result p r
    ∧ (acceptPaymentIdem env (acceptPaymentIdem env false p).snd p).fst
        = AcceptReturn.result p r := by
  refine ⟨?_, ?_, ?_, ?_⟩
  · intro ha; simp [acceptPayment, hs, ha]
  · intro c ha hc; simp [acceptPayment, hs, ha, hc]
  · simp [acceptPaymentIdem, hs, ackIdem]
  · simp [acceptPaymentIdem, hs, ackIdem]

/-- C3 witness: with a transport reporting the message as already
acknowledged, `acceptPayment` still returns the PaymentResult. -/
theorem C3_witness_already_acknowledged :
    envAckDup.submitOutcome = Except.ok { raw := "submitted" }
    ∧ envAckDup.ackOutcome = Except.error "ERR_INVALID_ACKNOWLEDGMENT"
    ∧ (acceptPayment envAckDup (inPay 5000)).fst
        = AcceptReturn.result (inPay 5000) { raw := "submitted" } :=
  ⟨rfl, rfl,
   (C3_acceptPayment_ack_idempotence envAckDup (inPay 5000)
     { raw := "submitted" } rfl).1 rfl⟩

/-- C5: when the incoming token's amount satisfies
`amount - 1000 < 1000`, `rejectPayment` (part_000 revision) only
acknowledges the source message: its trace is exactly the one
acknowledgment, with no claim submission and no outbound send. -/
theorem C5_rejectPayment_dust_guard (env : Env) (noncePre nonceSuf : String)
    (p : IncomingPayment) (hd : p.token.amount - 1000 < 1000) :
    (Alt.rejectPayment env noncePre nonceSuf p).snd
      = [Effect.ackMsg [p.messageId]]
    ∧ List.countP isSubmitEffect (Alt.rejectPayment env noncePre nonceSuf p).snd = 0
    ∧ sentAmounts (Alt.rejectPayment env noncePre nonceSuf p).snd = [] := by
  have h1 : (Alt.rejectPayment env noncePre nonceSuf p).snd
      = [Effect.ackMsg [p.messageId]] := by
    cases ha : env.ackOutcome <;> simp [Alt.rejectPayment, hd, ha]
  refine ⟨h1, ?_, ?_⟩ <;> rw [h1] <;> rfl

/-- C5 witness: the dust guard evaluated at amount 1500. -/
theorem C5_witness_amount_1500 :
    (inPay 1500).token.amount - 1000 < 1000
    ∧ ((Alt.rejectPayment env0 "p1" "s1" (inPay 1500)).snd
         = [Effect.ackMsg [(inPay 1500).messageId]]
       ∧ List.countP isSubmitEffect
           (Alt.rejectPayment env0 "p1" "s1" (inPay 1500)).snd = 0
       ∧ sentAmounts (Alt.rejectPayment env0 "p1" "s1" (inPay 1500)).snd = []) :=
  ⟨by decide, C5_rejectPayment_dust_guard env0 "p1" "s1" (inPay 1500) (by decide)⟩

/-- C6: when the incoming token's amount satisfies
`amount - 1000 >= 1000` and the claim submission succeeds,
`rejectPayment` (part_000 revision) first runs the full `acceptPayment`
flow and then sends the outbound refund: the trace is the acceptance trace
followed by the `sendPayment` trace; it contains exactly one outbound
payment, of `amount - 1000` satoshis to the original sender, and exactly
one acknowledgment, of the original message. -/
theorem C6_rejectPayment_refund (env : Env) (noncePre nonceSuf : String)
    (p : IncomingPayment) (r : SubmitResult)
    (hd : ¬ p.token.amount - 1000 < 1000)
    (hs : env.submitOutcome = Except.ok r) :
    (Alt.rejectPayment env noncePre nonceSuf p).snd
      = (acceptPayment env p).snd
        ++ Alt.sendPayment env noncePre nonceSuf
             { recipient := p.sender, amount := p.token.amount - 1000,
               sender := none, messageBox := none, body := none }
    ∧ sentAmounts (Alt.rejectPayment env noncePre nonceSuf p).snd
        = [(p.sender, p.token.amount - 1000)]
    ∧ ackEffects (Alt.rejectPayment env noncePre nonceSuf p).snd
        = [Effect.ackMsg [p.messageId]] := by
  have htr : (Alt.rejectPayment env noncePre nonceSuf p).snd
      = (acceptPayment env p).snd
        ++ Alt.sendPayment env noncePre nonceSuf
             { recipient := p.sender, amount := p.token.amount - 1000,
               sender := none, messageBox := none, body := none } := by
    simp [Alt.rejectPayment, hd]
  have hacc : (acceptPayment env p).snd
      = [Effect.submitDirect "3241645161d8" p.sender "PeerServ payment"
           p.amount p.token.derivationPrefix p.token.transaction,
         Effect.ackMsg [p.messageId]] := by
    cases ha : env.ackOutcome with
    | ok u => simp [acceptPayment, hs, ha]
    | error c =>
        by_cases hc : c = "ERR_INVALID_ACKNOWLEDGMENT" <;>
          simp [acceptPayment, hs, ha, hc]
  refine ⟨htr, ?_, ?_⟩ <;> rw [htr, hacc] <;> rfl

/-- C6 witness: the refund evaluated at amount 5000 produces one outbound
payment of 4000 to the original sender and one acknowledgment. -/
theorem C6_witness_amount_5000 :
    ¬ (inPay 5000).token.amount - 1000 < 1000
    ∧ env0.submitOutcome = Except.ok { raw := "submitted" }
    ∧ (inPay 5000).token.amount - 1000 = 4000
    ∧ sentAmounts (Alt.rejectPayment env0 "p1" "s1" (inPay 5000)).snd
        = [((inPay 5000).sender, (inPay 5000).token.amount - 1000)]
    ∧ ackEffects (Alt.rejectPayment env0 "p1" "s1" (inPay 5000)).snd
        = [Effect.ackMsg [(inPay 5000).messageId]] :=
  ⟨by decide, rfl, by decide,
   (C6_rejectPayment_refund env0 "p1" "s1" (inPay 5000) { raw := "submitted" }
     (by decide) rfl).2.1,
   (C6_rejectPayment_refund env0 "p1" "s1" (inPay 5000) { raw := "submitted" }
     (by decide) rfl).2.2⟩

/-- C8 helper: when every message body decodes, the recursive parse
succeeds and is a pointwise projection of the message list. -/
theorem parsePayments_ok (decode : String → Option TokenBody) :
    ∀ messages : List Message,
      (∀ m ∈ messages, (decode m.body).isSome) →
      ∃ ps : List IncomingPayment, parsePayments decode messages = some ps
        ∧ ps.length = messages.length
        ∧ ∀ i (h1 : i < ps.length) (h2 : i < messages.length),
            (ps.get ⟨i, h1⟩).messageId = (messages.get ⟨i, h2⟩).messageId
            ∧ (ps.get ⟨i, h1⟩).sender = (messages.get ⟨i, h2⟩).sender
            ∧ (ps.get ⟨i, h1⟩).amount = (messages.get ⟨i, h2⟩).amount
            ∧ some (ps.get ⟨i, h1⟩).token = decode (messages.get ⟨i, h2⟩).body
  | [], _ => ⟨[], rfl, rfl, fun i _ h2 => absurd h2 (Nat.not_lt_zero i)⟩
  | x :: xs, h => by
      obtain ⟨t, ht⟩ :=
        Option.isSome_iff_exists.mp (h x (List.mem_cons_self x xs))
      obtain ⟨ps, hps, hlen, hpt⟩ :=
        parsePayments_ok decode xs (fun m hm => h m (List.mem_cons_of_mem x hm))
      refine ⟨{ messageId := x.messageId, sender := x.sender,
                amount := x.amount, token := t } :: ps, ?_, ?_, ?_⟩
      · simp [parsePayments, ht, hps]
      · simp [hlen]
      · intro i h1 h2
        cases i with
        | zero => exact ⟨rfl, rfl, rfl, ht.symm⟩
        | succ j =>
            exact hpt j (Nat.lt_of_succ_lt_succ h1) (Nat.lt_of_succ_lt_succ h2)

/-- C8: on an inbox whose `N` unacknowledged messages all decode,
`listIncomingPayments` returns exactly `N` entries, the `i`-th being
`{messageId, sender, amount, token}` with `token` the decode of the `i`-th
message body; the only transport call is the listing — no acknowledgment
is performed. -/
theorem C8_listIncomingPayments_parses_all
    (decode : String → Option TokenBody) (messages : List Message)
    (h : ∀ m ∈ messages, (decode m.body).isSome) :
    (∃ ps : List IncomingPayment,
      (listIncomingPayments decode messages).fst = Except.ok ps
      ∧ ps.length = messages.length
      ∧ ∀ i (h1 : i < ps.length) (h2 : i < messages.length),
          (ps.get ⟨i, h1⟩).messageId = (messages.get ⟨i, h2⟩).messageId
          ∧ (ps.get ⟨i, h1⟩).sender = (messages.get ⟨i, h2⟩).sender
          ∧ (ps.get ⟨i, h1⟩).amount = (messages.get ⟨i, h2⟩).amount
          ∧ some (ps.get ⟨i, h1⟩).token = decode (messages.get ⟨i, h2⟩).body)
    ∧ (listIncomingPayments decode messages).snd
        = [Effect.listMsgs "payment_inbox"]
    ∧ ackEffects (listIncomingPayments decode messages).snd = [] := by
  obtain ⟨ps, hps, hlen, hpt⟩ := parsePayments_ok decode messages h
  exact ⟨⟨ps, by simp [listIncomingPayments, hps], hlen, hpt⟩, rfl, rfl⟩

/-- C8 witness: the listing evaluated on a one-message inbox whose body
decodes. -/
theorem C8_witness_one_message :
    (∀ m ∈ msgs0, (decode0 m.body).isSome)
    ∧ ((∃ ps : List IncomingPayment,
        (listIncomingPayments decode0 msgs0).fst = Except.ok ps
        ∧ ps.length = msgs0.length
        ∧ ∀ i (h1 : i < ps.length) (h2 : i < msgs0.length),
            (ps.get ⟨i, h1⟩).messageId = (msgs0.get ⟨i, h2⟩).messageId
            ∧ (ps.get ⟨i, h1⟩).sender = (msgs0.get ⟨i, h2⟩).sender
            ∧ (ps.get ⟨i, h1⟩).amount = (msgs0.get ⟨i, h2⟩).amount
            ∧ some (ps.get ⟨i, h1⟩).token = decode0 (msgs0.get ⟨i, h2⟩).body)
      ∧ (listIncomingPayments decode0 msgs0).snd
          = [Effect.listMsgs "payment_inbox"]
      ∧ ackEffects (listIncomingPayments decode0 msgs0).snd = []) :=
  ⟨by decide, C8_listIncomingPayments_parses_all decode0 msgs0 (by decide)⟩

/-- C10: in the accept-then-repay refund variant (part_000), when the
incoming amount is above the dust bound but the custodial acceptance
fails (`acceptPayment` returns the failure-indicator string), the outbound
refund of `amount - 1000` to the sender is still sent — and, the claim
submission having failed, the original message is never acknowledged. -/
theorem C10_refund_not_gated_on_accept (env : Env)
    (noncePre nonceSuf : String) (p : IncomingPayment)
    (hd : ¬ p.token.amount - 1000 < 1000)
    (hs : env.submitOutcome = Except.error ()) :
    (acceptPayment env p).fst
        = AcceptReturn.failure "Unable to receive payment!"
    ∧ sentAmounts (Alt.rejectPayment env noncePre nonceSuf p).snd
        = [(p.sender, p.token.amount - 1000)]
    ∧ ackEffects (Alt.rejectPayment env noncePre nonceSuf p).snd = [] := by
  have htr : (Alt.rejectPayment env noncePre nonceSuf p).snd
      = (acceptPayment env p).snd
        ++ Alt.sendPayment env noncePre nonceSuf
             { recipient := p.sender, amount := p.token.amount - 1000,
               sender := none, messageBox := none, body := none } := by
    simp [Alt.rejectPayment, hd]
  have hacc : (acceptPayment env p).snd
      = [Effect.submitDirect "3241645161d8" p.sender "PeerServ payment"
           p.amount p.token.derivationPrefix p.token.transaction] := by
    simp [acceptPayment, hs]
  refine ⟨by simp [acceptPayment, hs], ?_, ?_⟩ <;> rw [htr, hacc] <;> rfl

/-- C10 witness: with a failing claim submission and amount 5000, the
refund of 4000 to the sender is still sent. -/
theorem C10_witness_accept_failure :
    ¬ (inPay 5000).token.amount - 1000 < 1000
    ∧ envSubmitFail.submitOutcome = Except.error ()
    ∧ (acceptPayment envSubmitFail (inPay 5000)).fst
        = AcceptReturn.failure "Unable to receive payment!"
    ∧ sentAmounts (Alt.rejectPayment envSubmitFail "p1" "s1" (inPay 5000)).snd
        = [((inPay 5000).sender, (inPay 5000).token.amount - 1000)] :=
  ⟨by decide, rfl,
   (C10_refund_not_gated_on_accept envSubmitFail "p1" "s1" (inPay 5000)
     (by decide) rfl).1,
   (C10_refund_not_gated_on_accept envSubmitFail "p1" "s1" (inPay 5000)
     (by decide) rfl).2.1⟩

end PaymentTokenator
